import Mathlib

/-!
Shallow embedding of `pygom/utilR/distn.py` (R-style distribution helpers).

The module wraps numpy / scipy distribution routines.  The embedding models:

* the numpy global generator state and OS entropy pool as a `World`;
* a `numpy.random.RandomState` object as its internal state (a `Nat`);
* a draw from a sampler as a symbolic `Draw` recording exactly the data that
  determines the sampled values: which sampler was called, the parameters
  passed to it, the requested `size`, and the internal state of the generator
  that supplied the entropy.  Sampling advances the supplying generator's
  state deterministically (`nextState`);
* Python seed arguments as `PySeed`; note that in Python `bool` is a subtype
  of `int`, so `isinstance(seed, int)` is true for `True` and `False`, and
  truthiness of a seed value follows Python rules.

The reparameterized densities (`gamma_mu_shape`, `nb2pmf`) and the delegated
scipy densities are embedded as exact real-valued functions.
-/

/-- Internal state of a `numpy.random.RandomState` object. -/
structure RandomState where
  state : Nat
deriving DecidableEq

/-- Process-wide mutable state: the numpy global generator plus the OS
entropy pool used when a `RandomState()` is created without a seed. -/
structure World where
  globalState : Nat
  entropy : Nat
deriving DecidableEq

/-- Deterministic advance of a generator state after producing `n` variates. -/
def nextState (s : Nat) (n : Nat) : Nat := s + n

/-- Internal state of `numpy.random.RandomState(seed)` for an integer seed:
fully determined by the seed. -/
def seedInit (n : Int) : Nat := n.natAbs

/-- A symbolic sampler call: the returned array of `size` variates is a
deterministic function of these four fields. -/
structure Draw where
  family : String
  params : List ℝ
  size : Nat
  state : Nat

/-- A Python value returned by a random-variate function: either an ndarray
(the whole draw) or a scalar (`draw[i]`; Python requires `i < size`). -/
inductive PyObj where
  | arr (d : Draw)
  | scalar (d : Draw) (i : Nat)

/-- Draw `n` variates from a sampler bound to the numpy global generator
(e.g. `np.random.exponential`, or `st.<dist>.rvs` which shares the same
global `RandomState`): consumes and advances the global state. -/
def npGlobalDraw (family : String) (params : List ℝ) (n : Nat) (w : World) :
    Draw × World :=
  (⟨family, params, n, w.globalState⟩,
   ⟨nextState w.globalState n, w.entropy⟩)

/-- Draw `n` variates from a method of an explicit `RandomState` object:
consumes and advances only that object's private state. -/
def rsDraw (family : String) (params : List ℝ) (n : Nat) (r : RandomState) :
    Draw × RandomState :=
  (⟨family, params, n, r.state⟩, ⟨nextState r.state n⟩)

/-- The `if n > 1: return arr else: return arr[0]` pattern shared by the
random-variate functions of the source. -/
def scalarOrArray (d : Draw) (n : Nat) : PyObj :=
  if n > 1 then PyObj.arr d else PyObj.scalar d 0

/-- The Python value passed as the `seed` argument. -/
inductive PySeed where
  | none
  | bool (b : Bool)
  | int (n : Int)
  | rs (r : RandomState)
  | str (s : String)
  | float (q : ℚ)
deriving DecidableEq

/-- Python `isinstance(seed, int)`: true for `int` and also for `bool`,
since `bool` is a subclass of `int`. -/
def isinstance_int : PySeed → Bool
  | PySeed.int _ => true
  | PySeed.bool _ => true
  | _ => false

/-- The integer value of a Python value that is an instance of `int`
(`True` is 1, `False` is 0). -/
def pyIntVal : PySeed → Int
  | PySeed.int n => n
  | PySeed.bool b => if b then 1 else 0
  | _ => 0

/-- Python truthiness of a seed value (`if seed:` in `runif`). -/
def pyTruthy : PySeed → Bool
  | PySeed.none => false
  | PySeed.bool b => b
  | PySeed.int n => decide (n ≠ 0)
  | PySeed.rs _ => true
  | PySeed.str s => decide (s ≠ "")
  | PySeed.float q => decide (q ≠ 0)

/-- The message of the `RuntimeError` raised by `test_seed`. -/
def seedErrorMessage : String := "seed must be (bool, int or np.random.RandomState"

/-- Embedding of `test_seed` (distn.py:538-570), branch for branch, in source
order: `seed is True`, then `isinstance(seed, np.random.RandomState)`, then
`isinstance(seed, int)`, then `seed is False`, else raise.  The error case
leaves the world untouched (the exception is raised before any draw). -/
def test_seed (seed : PySeed) (w : World) : Except String RandomState × World :=
  if seed = PySeed.bool true then
    (Except.ok ⟨w.entropy⟩, ⟨w.globalState, w.entropy + 1⟩)
  else
    match seed with
    | PySeed.rs r => (Except.ok r, w)
    | s =>
      if isinstance_int s then
        (Except.ok ⟨seedInit (pyIntVal s)⟩, w)
      else if s = PySeed.bool false then
        (Except.ok ⟨w.globalState⟩, w)
      else
        (Except.error seedErrorMessage, w)

/-- Result of a Python call that may raise: the (possibly error) value paired
with the world as left behind by the call. -/
abbrev PyResult := Except String PyObj × World

/-- Embedding of `rexp` (distn.py:51-70): `seed is None` draws via the
global `np.random.exponential`; otherwise the draw comes from the generator
returned by `test_seed` (whose construction may consume entropy, and which
may raise).  `scale = 1.0/rate`; `n = 1` unwraps the singleton array. -/
noncomputable def rexp (n : Nat) (rate : ℝ) (seed : PySeed) (w : World) : PyResult :=
  match seed with
  | PySeed.none =>
    let dw := npGlobalDraw "np.random.exponential" [1 / rate] n w
    (Except.ok (scalarOrArray dw.1 n), dw.2)
  | s =>
    match test_seed s w with
    | (Except.error e, w2) => (Except.error e, w2)
    | (Except.ok r, w2) =>
      (Except.ok (scalarOrArray (rsDraw "np.random.exponential" [1 / rate] n r).1 n), w2)

/-- Embedding of `rgamma` (distn.py:134-153); `scale = 1.0/rate`. -/
noncomputable def rgamma (n : Nat) (shape rate : ℝ) (seed : PySeed) (w : World) : PyResult :=
  match seed with
  | PySeed.none =>
    let dw := npGlobalDraw "np.random.gamma" [shape, 1 / rate] n w
    (Except.ok (scalarOrArray dw.1 n), dw.2)
  | s =>
    match test_seed s w with
    | (Except.error e, w2) => (Except.error e, w2)
    | (Except.ok r, w2) =>
      (Except.ok (scalarOrArray (rsDraw "np.random.gamma" [shape, 1 / rate] n r).1 n), w2)

/-- Embedding of `rnorm` (distn.py:184-203). -/
noncomputable def rnorm (n : Nat) (mean sd : ℝ) (seed : PySeed) (w : World) : PyResult :=
  match seed with
  | PySeed.none =>
    let dw := npGlobalDraw "np.random.normal" [mean, sd] n w
    (Except.ok (scalarOrArray dw.1 n), dw.2)
  | s =>
    match test_seed s w with
    | (Except.error e, w2) => (Except.error e, w2)
    | (Except.ok r, w2) =>
      (Except.ok (scalarOrArray (rsDraw "np.random.normal" [mean, sd] n r).1 n), w2)

/-- Embedding of `rchisq` (distn.py:234-253). -/
noncomputable def rchisq (n : Nat) (df : ℝ) (seed : PySeed) (w : World) : PyResult :=
  match seed with
  | PySeed.none =>
    let dw := npGlobalDraw "np.random.chisquare" [df] n w
    (Except.ok (scalarOrArray dw.1 n), dw.2)
  | s =>
    match test_seed s w with
    | (Except.error e, w2) => (Except.error e, w2)
    | (Except.ok r, w2) =>
      (Except.ok (scalarOrArray (rsDraw "np.random.chisquare" [df] n r).1 n), w2)

/-- Embedding of `runif` (distn.py:284-309).  After resolving `rvs`
(`np.random.uniform` when `seed is None`, else `test_seed(seed).uniform`),
the source branches on the TRUTHINESS of `seed` itself: a truthy seed routes
the draw through `st.uniform.rvs`, which uses the scipy default generator —
the shared numpy global `RandomState` — and ignores the resolved `rvs`;
only a falsy seed uses the bound `rvs`. -/
noncomputable def runif (n : Nat) (mn mx : ℝ) (seed : PySeed) (w : World) : PyResult :=
  match seed with
  | PySeed.none =>
    let dw := npGlobalDraw "np.random.uniform" [mn, mx] n w
    (Except.ok (scalarOrArray dw.1 n), dw.2)
  | s =>
    match test_seed s w with
    | (Except.error e, w2) => (Except.error e, w2)
    | (Except.ok r, w2) =>
      if pyTruthy s then
        let dw := npGlobalDraw "st.uniform.rvs" [mn, mx - mn] n w2
        (Except.ok (scalarOrArray dw.1 n), dw.2)
      else
        (Except.ok (scalarOrArray (rsDraw "np.random.uniform" [mn, mx] n r).1 n), w2)

/-- Embedding of `rbeta` (distn.py:320-325): the `seed` argument is accepted
but never used, and the draw is `st.beta.rvs(shape1, shape2, size=n)` on the
global generator, returned without the `n = 1` unwrapping of the other
families (scipy `rvs` with an explicit `size=1` yields a length-1 array). -/
noncomputable def rbeta (n : Nat) (shape1 shape2 : ℝ) (_seed : PySeed) (w : World) : PyResult :=
  let dw := npGlobalDraw "st.beta.rvs" [shape1, shape2] n w
  (Except.ok (PyObj.arr dw.1), dw.2)

/-- Embedding of `rmvnorm` (distn.py:346-351): like `rbeta`, the `seed`
argument is ignored and the call is delegated wholesale to
`st.multivariate_normal.rvs` on the global generator. -/
noncomputable def rmvnorm (n : Nat) (mean : List ℝ) (sigma : List (List ℝ))
    (_seed : PySeed) (w : World) : PyResult :=
  let dw := npGlobalDraw "st.multivariate_normal.rvs" (mean ++ sigma.flatten) n w
  (Except.ok (PyObj.arr dw.1), dw.2)

/-- Embedding of `rpois` (distn.py:388-407). -/
noncomputable def rpois (n : Nat) (mu : ℝ) (seed : PySeed) (w : World) : PyResult :=
  match seed with
  | PySeed.none =>
    let dw := npGlobalDraw "np.random.poisson" [mu] n w
    (Except.ok (scalarOrArray dw.1 n), dw.2)
  | s =>
    match test_seed s w with
    | (Except.error e, w2) => (Except.error e, w2)
    | (Except.ok r, w2) =>
      (Except.ok (scalarOrArray (rsDraw "np.random.poisson" [mu] n r).1 n), w2)

/-- Embedding of `rbinom` (distn.py:438-457). -/
noncomputable def rbinom (n : Nat) (size prob : ℝ) (seed : PySeed) (w : World) : PyResult :=
  match seed with
  | PySeed.none =>
    let dw := npGlobalDraw "np.random.binomial" [size, prob] n w
    (Except.ok (scalarOrArray dw.1 n), dw.2)
  | s =>
    match test_seed s w with
    | (Except.error e, w2) => (Except.error e, w2)
    | (Except.ok r, w2) =>
      (Except.ok (scalarOrArray (rsDraw "np.random.binomial" [size, prob] n r).1 n), w2)

/-- Does the call result hold a bare scalar? -/
def resIsScalar : Except String PyObj → Bool
  | Except.ok (PyObj.scalar _ _) => true
  | _ => false

/-- Length of the ndarray held by the call result, if any. -/
def resLen : Except String PyObj → Option Nat
  | Except.ok (PyObj.arr d) => some d.size
  | _ => none

/-- Did the call return normally (no exception)? -/
def resIsOk : Except String PyObj → Bool
  | Except.ok _ => true
  | _ => false

/-- `scipy.special.gammaln`: the natural log of the Gamma function. -/
noncomputable def gammaln (x : ℝ) : ℝ := Real.log (Real.Gamma x)

/-- Embedding of `gamma_mu_shape` (distn.py:85-115), term for term:
the mean/shape gamma log-density, exponentiated unless `lg` is set. -/
noncomputable def gamma_mu_shape (x mu shape : ℝ) (lg : Bool) : ℝ :=
  let logpdf_p1 := -gammaln shape
  let logpdf_p2 := (shape - 1) * Real.log x
  let logpdf_p3 := -(shape * Real.log (mu / shape))
  let logpdf_p4 := -(shape * x / mu)
  let logpdf := logpdf_p1 + logpdf_p2 + logpdf_p3 + logpdf_p4
  if lg then logpdf else Real.exp logpdf

/-- `scipy.stats.gamma.logpdf(x, a=shape, scale)`: the delegate's gamma
log-density, `(a-1)·log(x/scale) - x/scale - logGamma(a) - log(scale)`. -/
noncomputable def st_gamma_logpdf (x a scale : ℝ) : ℝ :=
  (a - 1) * Real.log (x / scale) - x / scale - gammaln a - Real.log scale

/-- Embedding of `dgamma` (distn.py:75-83): delegates to the scipy gamma
density with `a = shape`, `scale = 1.0/rate`. -/
noncomputable def dgamma (x shape rate : ℝ) (lg : Bool) : ℝ :=
  if lg then st_gamma_logpdf x shape (1 / rate)
  else Real.exp (st_gamma_logpdf x shape (1 / rate))

/-- Embedding of `nb2pmf` (distn.py:473-512), term for term: the ecological
(mean, overdispersion) negative-binomial log-mass, exponentiated unless
`lg` is set. -/
noncomputable def nb2pmf (x mu k : ℝ) (lg : Bool) : ℝ :=
  let logpmf_p1 := -gammaln (x + 1)
  let logpmf_p2 := -gammaln k
  let logpmf_p3 := k * (Real.log k - Real.log (k + mu))
  let logpmf_p4 := x * (Real.log mu - Real.log (k + mu))
  let logpmf_p5 := gammaln (k + x)
  let logpmf := logpmf_p1 + logpmf_p2 + logpmf_p3 + logpmf_p4 + logpmf_p5
  if lg then logpmf else Real.exp logpmf

/-- `scipy.stats.nbinom.logpmf(x, n, p)`: the delegate's (size, prob)
negative-binomial log-mass
`logGamma(n+x) - logGamma(n) - logGamma(x+1) + n·log p + x·log(1-p)`. -/
noncomputable def st_nbinom_logpmf (x n p : ℝ) : ℝ :=
  gammaln (n + x) - gammaln n - gammaln (x + 1)
    + n * Real.log p + x * Real.log (1 - p)

/-- `scipy.stats.nbinom.pmf(x, n, p)`: the exponential of the log-mass. -/
noncomputable def st_nbinom_pmf (x n p : ℝ) : ℝ :=
  Real.exp (st_nbinom_logpmf x n p)

/-- Message of the exception raised by `dnbinom` when neither `prob` nor
`mu` is given (Python text: Neither prob or mu were specified). -/
def missingParamMessage : String := "Neither prob or mu were specified"

/-- Message of the exception raised by `dnbinom` when both `prob` and `mu`
are given (Python text: prob and mu both specified). -/
def conflictParamMessage : String := "prob and mu both specified"

/-- Embedding of `dnbinom` (distn.py:514-536), branch for branch: raise if
both `prob` and `mu` are absent; if `mu` is present, raise if `prob` is also
present, else use `nb2pmf` with `k = size`; otherwise delegate to the scipy
(n=size, p=prob) mass.  The final arm is unreachable (the both-absent case
is caught by the first test), mirroring the source control flow. -/
noncomputable def dnbinom (x size : ℝ) (prob mu : Option ℝ) (lg : Bool) :
    Except String ℝ :=
  if mu.isNone && prob.isNone then
    Except.error missingParamMessage
  else
    match mu with
    | some m =>
      if prob.isSome then
        Except.error conflictParamMessage
      else
        Except.ok (if lg then nb2pmf x m size true else nb2pmf x m size false)
    | none =>
      match prob with
      | some p =>
        Except.ok (if lg then st_nbinom_logpmf x size p else st_nbinom_pmf x size p)
      | none => Except.error missingParamMessage

/-- `scipy.stats.beta.pdf(x, a, b)`: the delegate's beta density
`Gamma(a+b)/(Gamma(a)·Gamma(b)) · x^(a-1) · (1-x)^(b-1)`. -/
noncomputable def st_beta_pdf (x a b : ℝ) : ℝ :=
  Real.Gamma (a + b) / (Real.Gamma a * Real.Gamma b)
    * x ^ (a - 1) * (1 - x) ^ (b - 1)

/-- Embedding of `dbeta` (distn.py:313-318): the body is
`return st.beta.pdf(x, shape1, shape2)` — the `log` argument is accepted
but never consulted. -/
noncomputable def dbeta (x shape1 shape2 : ℝ) (_lg : Bool) : ℝ :=
  st_beta_pdf x shape1 shape2

/-- `scipy.stats.chi2.pdf(x, df)`: the delegate's chi-squared density
`x^(df/2-1) · exp(-x/2) / (2^(df/2) · Gamma(df/2))`. -/
noncomputable def st_chi2_pdf (x df : ℝ) : ℝ :=
  x ^ (df / 2 - 1) * Real.exp (-x / 2) / (2 ^ (df / 2) * Real.Gamma (df / 2))

/-- `scipy.stats.chi2.cdf(q, df)`: the cumulative probability, i.e. the
integral of the density over `(0, q]` (the support starts at 0). -/
noncomputable def st_chi2_cdf (q df : ℝ) : ℝ :=
  ∫ t in (0:ℝ)..q, st_chi2_pdf t df

/-- Embedding of `pchisq` (distn.py:217-225) as written in the source: the
`log` branch returns `st.chi2.logpdf(x, df)` and the other branch
`st.chi2.pdf(x, df)` — the DENSITY, not the cumulative probability. -/
noncomputable def pchisq (x df : ℝ) (lg : Bool) : ℝ :=
  if lg then Real.log (st_chi2_pdf x df) else st_chi2_pdf x df

/-- C1: for every `x > 0`, `mu > 0`, `a > 0`, `gamma_mu_shape(x, mu, a,
log=True)` equals `dgamma(x, shape=a, rate=a/mu, log=True)`, i.e. equals
`-logGamma(a) + (a-1)·log(x) - a·log(mu/a) - a·x/mu` (exactly, over ℝ). -/
theorem gamma_mu_shape_matches_dgamma (x mu a : ℝ)
    (hx : 0 < x) (hmu : 0 < mu) (ha : 0 < a) :
    gamma_mu_shape x mu a true = dgamma x a (a / mu) true ∧
    gamma_mu_shape x mu a true =
      -gammaln a + (a - 1) * Real.log x - a * Real.log (mu / a) - a * x / mu := by
  have hform : gamma_mu_shape x mu a true =
      -gammaln a + (a - 1) * Real.log x - a * Real.log (mu / a) - a * x / mu := by
    simp only [gamma_mu_shape, if_true]
    ring
  refine ⟨?_, hform⟩
  rw [hform]
  show _ = st_gamma_logpdf x a (1 / (a / mu))
  rw [one_div_div]
  unfold st_gamma_logpdf
  rw [Real.log_div hx.ne' (div_pos hmu ha).ne', div_div_eq_mul_div]
  ring

/-- Witness for C1 at `x = 2`, `mu = 3`, `a = 4`. -/
theorem gamma_mu_shape_matches_dgamma_witness :
    gamma_mu_shape 2 3 4 true = dgamma 2 4 (4 / 3) true :=
  (gamma_mu_shape_matches_dgamma 2 3 4 (by norm_num) (by norm_num) (by norm_num)).1

/-- C2: for every non-negative integer `x`, `mu > 0`, `k > 0`, the
ecological negative-binomial mass `nb2pmf(x, mu, k)` equals the delegate's
(size, prob) mass at `size = k`, `prob = k/(k+mu)`, and its log equals
`-logGamma(x+1) - logGamma(k) + k·(log k - log(k+mu))
 + x·(log mu - log(k+mu)) + logGamma(k+x)` (exactly, over ℝ). -/
theorem nb2pmf_matches_st_nbinom (x : ℕ) (mu k : ℝ)
    (hmu : 0 < mu) (hk : 0 < k) :
    nb2pmf (x : ℝ) mu k false = st_nbinom_pmf (x : ℝ) k (k / (k + mu)) ∧
    nb2pmf (x : ℝ) mu k true =
      -gammaln ((x : ℝ) + 1) - gammaln k + k * (Real.log k - Real.log (k + mu))
        + (x : ℝ) * (Real.log mu - Real.log (k + mu)) + gammaln (k + (x : ℝ)) := by
  have hkmu : (0:ℝ) < k + mu := by linarith
  have hlog : nb2pmf (x : ℝ) mu k true = st_nbinom_logpmf (x : ℝ) k (k / (k + mu)) := by
    simp only [nb2pmf, st_nbinom_logpmf, if_true]
    rw [Real.log_div hk.ne' hkmu.ne', one_sub_div hkmu.ne', add_sub_cancel_left,
      Real.log_div hmu.ne' hkmu.ne']
    ring
  refine ⟨?_, ?_⟩
  · show Real.exp _ = Real.exp _
    exact congrArg Real.exp hlog
  · simp only [nb2pmf, if_true]
    ring

/-- Witness for C2 at `x = 3`, `mu = 2`, `k = 1`. -/
theorem nb2pmf_matches_st_nbinom_witness :
    nb2pmf ((3 : ℕ) : ℝ) 2 1 false = st_nbinom_pmf ((3 : ℕ) : ℝ) 1 (1 / (1 + 2)) :=
  (nb2pmf_matches_st_nbinom 3 2 1 (by norm_num) (by norm_num)).1

/-- C3: `dnbinom` raises the missing-parameter error exactly when both
`prob` and `mu` are absent, raises the conflicting-parameter error exactly
when both are present, and with exactly one present returns normally — the
ecological mass with `k = size` when `mu` is given, the delegate's
(n=size, p=prob) mass when `prob` is given.  (Errors depend only on the
`prob`/`mu` pattern, never on the numeric arguments: no numeric computation
precedes them.) -/
theorem dnbinom_param_validation (x size pr m : ℝ) (lg : Bool) :
    (∀ prob mu : Option ℝ,
      (dnbinom x size prob mu lg = Except.error missingParamMessage ↔
        prob = none ∧ mu = none) ∧
      (dnbinom x size prob mu lg = Except.error conflictParamMessage ↔
        prob ≠ none ∧ mu ≠ none)) ∧
    dnbinom x size none (some m) lg = Except.ok (nb2pmf x m size lg) ∧
    dnbinom x size (some pr) none lg =
      Except.ok (if lg then st_nbinom_logpmf x size pr else st_nbinom_pmf x size pr) := by
  have hmsg : missingParamMessage ≠ conflictParamMessage := by decide
  refine ⟨?_, ?_, ?_⟩
  · intro prob mu
    rcases prob with _ | p0 <;> rcases mu with _ | m0 <;>
      simp [dnbinom, hmsg, hmsg.symm]
  · cases lg <;> simp [dnbinom]
  · cases lg <;> simp [dnbinom]

/-- C6: the claim says `pchisq(q, df)` is the chi-squared cumulative
probability, but the source delegates to `st.chi2.pdf` / `st.chi2.logpdf`
(the density).  At `q = 0`, `df = 2` the code yields the density value
`1/2`, while the cumulative probability at the lower end of the support
is `0`. -/
theorem pchisq_returns_density_not_cdf :
    pchisq 0 2 false = st_chi2_pdf 0 2 ∧
    st_chi2_pdf 0 2 = 1 / 2 ∧
    st_chi2_cdf 0 2 = 0 ∧
    pchisq 0 2 false ≠ st_chi2_cdf 0 2 := by
  have hpdf : st_chi2_pdf 0 2 = 1 / 2 := by
    unfold st_chi2_pdf
    rw [show (2:ℝ) / 2 - 1 = 0 by norm_num, show (2:ℝ) / 2 = 1 by norm_num]
    rw [Real.rpow_zero, Real.rpow_one, Real.Gamma_one]
    norm_num
  have hcdf : st_chi2_cdf 0 2 = 0 := intervalIntegral.integral_same
  refine ⟨rfl, hpdf, hcdf, ?_⟩
  show st_chi2_pdf 0 2 ≠ st_chi2_cdf 0 2
  rw [hpdf, hcdf]
  norm_num

/-- `test_seed` on an integer: a generator fully determined by the seed. -/
theorem test_seed_int (s : Int) (w : World) :
    test_seed (PySeed.int s) w = (Except.ok (RandomState.mk s.natAbs), w) := rfl

/-- `test_seed` on `True`: a freshly, entropy-seeded generator. -/
theorem test_seed_true (w : World) :
    test_seed (PySeed.bool true) w =
      (Except.ok (RandomState.mk w.entropy), ⟨w.globalState, w.entropy + 1⟩) := rfl

/-- `test_seed` on `False`: `isinstance(False, int)` holds, so the integer
branch fires with value 0 and the snapshot branch is never reached. -/
theorem test_seed_false (w : World) :
    test_seed (PySeed.bool false) w = (Except.ok (RandomState.mk 0), w) := rfl

/-- `test_seed` on a string: the `RuntimeError`, world untouched. -/
theorem test_seed_str (s : String) (w : World) :
    test_seed (PySeed.str s) w = (Except.error seedErrorMessage, w) := rfl

/-- `test_seed` on a float: the `RuntimeError`, world untouched. -/
theorem test_seed_float (q : ℚ) (w : World) :
    test_seed (PySeed.float q) w = (Except.error seedErrorMessage, w) := rfl

/-- `test_seed` on an existing generator object: returned as-is. -/
theorem test_seed_rs (r : RandomState) (w : World) :
    test_seed (PySeed.rs r) w = (Except.ok r, w) := rfl

/-- C4 counterexample: `runif` is one of the cited random-variate
operations, yet with the fixed valid parameters `(n=1, min=0, max=1)` and
integer seed 1 two successive calls give different draws — a truthy seed
routes the draw through `st.uniform.rvs` on the ambient global generator,
whose state the first call advances. -/
theorem runif_int_seed_not_reproducible :
    (runif 1 0 1 (PySeed.int 1) ⟨0, 0⟩).1 ≠
    (runif 1 0 1 (PySeed.int 1) ((runif 1 0 1 (PySeed.int 1) ⟨0, 0⟩).2)).1 := by
  simp [runif, test_seed_int, pyTruthy, npGlobalDraw, nextState, scalarOrArray]

/-- C4 amended: for the families whose draw goes through the generator that
`test_seed` resolves — `rexp`, `rgamma`, `rnorm`, `rchisq`, `rpois`,
`rbinom` — an integer seed fully determines the returned draw whatever the
ambient world, and the call leaves the world unchanged; `runif` enjoys this
only for the (falsy) integer seed 0, and `rbeta` / `rmvnorm` ignore the
seed argument altogether, behaving exactly as with `seed=None`. -/
theorem int_seed_determinism_by_family (n : Nat) (p1 p2 : ℝ) (mv : List ℝ)
    (sg : List (List ℝ)) (s : Int) (w w' : World) :
    ((rexp n p1 (PySeed.int s) w).1 = (rexp n p1 (PySeed.int s) w').1 ∧
      (rexp n p1 (PySeed.int s) w).2 = w) ∧
    ((rgamma n p1 p2 (PySeed.int s) w).1 = (rgamma n p1 p2 (PySeed.int s) w').1 ∧
      (rgamma n p1 p2 (PySeed.int s) w).2 = w) ∧
    ((rnorm n p1 p2 (PySeed.int s) w).1 = (rnorm n p1 p2 (PySeed.int s) w').1 ∧
      (rnorm n p1 p2 (PySeed.int s) w).2 = w) ∧
    ((rchisq n p1 (PySeed.int s) w).1 = (rchisq n p1 (PySeed.int s) w').1 ∧
      (rchisq n p1 (PySeed.int s) w).2 = w) ∧
    ((rpois n p1 (PySeed.int s) w).1 = (rpois n p1 (PySeed.int s) w').1 ∧
      (rpois n p1 (PySeed.int s) w).2 = w) ∧
    ((rbinom n p1 p2 (PySeed.int s) w).1 = (rbinom n p1 p2 (PySeed.int s) w').1 ∧
      (rbinom n p1 p2 (PySeed.int s) w).2 = w) ∧
    (runif n p1 p2 (PySeed.int 0) w).1 = (runif n p1 p2 (PySeed.int 0) w').1 ∧
    rbeta n p1 p2 (PySeed.int s) w = rbeta n p1 p2 PySeed.none w ∧
    rmvnorm n mv sg (PySeed.int s) w = rmvnorm n mv sg PySeed.none w := by
  refine ⟨⟨?_, ?_⟩, ⟨?_, ?_⟩, ⟨?_, ?_⟩, ⟨?_, ?_⟩, ⟨?_, ?_⟩, ⟨?_, ?_⟩, ?_, rfl, rfl⟩ <;>
    simp [rexp, rgamma, rnorm, rchisq, rpois, rbinom, runif,
      test_seed_int, pyTruthy]

/-- C5 counterexample: `rbeta` with `n = 1` returns a length-1 array, not a
bare scalar — its body delegates to `st.beta.rvs(shape1, shape2, size=n)`
without the `[0]` unwrapping the other families perform. -/
theorem rbeta_n_one_returns_array :
    resIsScalar (rbeta 1 2 3 PySeed.none ⟨0, 0⟩).1 = false ∧
    resLen (rbeta 1 2 3 PySeed.none ⟨0, 0⟩).1 = some 1 := ⟨rfl, rfl⟩

/-- C5 amended: for `rexp`, `rgamma`, `rnorm`, `rchisq`, `runif`, `rpois`
and `rbinom`, a call with `n = 1` returns a bare scalar and a call with
`n > 1` an array of length `n`; `rbeta` (whose return shaping, like
`rmvnorm`'s, is delegated wholesale to scipy `rvs`) returns a length-`n`
array even when `n = 1`. -/
theorem scalar_array_convention_by_family (n : Nat) (p1 p2 : ℝ) (w : World)
    (hn : 0 < n) :
    (resIsScalar (rexp n p1 PySeed.none w).1 = decide (n = 1) ∧
      resLen (rexp n p1 PySeed.none w).1 = if n = 1 then none else some n) ∧
    (resIsScalar (rgamma n p1 p2 PySeed.none w).1 = decide (n = 1) ∧
      resLen (rgamma n p1 p2 PySeed.none w).1 = if n = 1 then none else some n) ∧
    (resIsScalar (rnorm n p1 p2 PySeed.none w).1 = decide (n = 1) ∧
      resLen (rnorm n p1 p2 PySeed.none w).1 = if n = 1 then none else some n) ∧
    (resIsScalar (rchisq n p1 PySeed.none w).1 = decide (n = 1) ∧
      resLen (rchisq n p1 PySeed.none w).1 = if n = 1 then none else some n) ∧
    (resIsScalar (runif n p1 p2 PySeed.none w).1 = decide (n = 1) ∧
      resLen (runif n p1 p2 PySeed.none w).1 = if n = 1 then none else some n) ∧
    (resIsScalar (rpois n p1 PySeed.none w).1 = decide (n = 1) ∧
      resLen (rpois n p1 PySeed.none w).1 = if n = 1 then none else some n) ∧
    (resIsScalar (rbinom n p1 p2 PySeed.none w).1 = decide (n = 1) ∧
      resLen (rbinom n p1 p2 PySeed.none w).1 = if n = 1 then none else some n) ∧
    (resIsScalar (rbeta n p1 p2 PySeed.none w).1 = false ∧
      resLen (rbeta n p1 p2 PySeed.none w).1 = some n) := by
  rcases Nat.lt_or_ge n 2 with h2 | h2
  · have h1 : n = 1 := by omega
    subst h1
    simp [rexp, rgamma, rnorm, rchisq, runif, rpois, rbinom, rbeta,
      scalarOrArray, npGlobalDraw, resIsScalar, resLen]
  · have hgt : 1 < n := by omega
    have hne : n ≠ 1 := by omega
    simp [rexp, rgamma, rnorm, rchisq, runif, rpois, rbinom, rbeta,
      scalarOrArray, npGlobalDraw, resIsScalar, resLen, hgt, hne]

/-- Witness for C5 amended at `n = 1` (scalar) and `n = 5` (length-5 array). -/
theorem scalar_array_convention_by_family_witness :
    resIsScalar (rexp 1 1 PySeed.none ⟨0, 0⟩).1 = true ∧
    resLen (rexp 5 1 PySeed.none ⟨0, 0⟩).1 = some 5 := by
  have h1 := (scalar_array_convention_by_family 1 1 1 ⟨0, 0⟩ (by decide)).1
  have h5 := (scalar_array_convention_by_family 5 1 1 ⟨0, 0⟩ (by decide)).1
  exact ⟨by simpa using h1.1, by simpa using h5.2⟩

/-- C7 counterexample: `rbeta` never consults its `seed` argument, so a
call with an unrecognized seed (a string, or a float) draws normally
instead of failing with the invalid-input error the claim requires. -/
theorem rbeta_invalid_seed_no_error :
    resIsOk (rbeta 1 2 3 (PySeed.str "not a seed") ⟨0, 0⟩).1 = true ∧
    resIsOk (rbeta 1 2 3 (PySeed.float (1 / 2)) ⟨0, 0⟩).1 = true := ⟨rfl, rfl⟩

/-- C7 amended: the random-variate operations that route their seed through
`test_seed` — `rexp`, `rgamma`, `rnorm`, `rchisq`, `runif`, `rpois`,
`rbinom` — fail with the invalid-input `RuntimeError` on a string or float
seed before any draw, leaving the world (global generator state and entropy
pool) exactly unchanged; `rbeta` and `rmvnorm` ignore the seed argument and
return draws normally. -/
theorem invalid_seed_rejected_by_seed_aware_families (n : Nat) (p1 p2 : ℝ)
    (mv : List ℝ) (sg : List (List ℝ)) (s : String) (q : ℚ) (w : World) :
    rexp n p1 (PySeed.str s) w = (Except.error seedErrorMessage, w) ∧
    rexp n p1 (PySeed.float q) w = (Except.error seedErrorMessage, w) ∧
    rgamma n p1 p2 (PySeed.str s) w = (Except.error seedErrorMessage, w) ∧
    rgamma n p1 p2 (PySeed.float q) w = (Except.error seedErrorMessage, w) ∧
    rnorm n p1 p2 (PySeed.str s) w = (Except.error seedErrorMessage, w) ∧
    rnorm n p1 p2 (PySeed.float q) w = (Except.error seedErrorMessage, w) ∧
    rchisq n p1 (PySeed.str s) w = (Except.error seedErrorMessage, w) ∧
    rchisq n p1 (PySeed.float q) w = (Except.error seedErrorMessage, w) ∧
    runif n p1 p2 (PySeed.str s) w = (Except.error seedErrorMessage, w) ∧
    runif n p1 p2 (PySeed.float q) w = (Except.error seedErrorMessage, w) ∧
    rpois n p1 (PySeed.str s) w = (Except.error seedErrorMessage, w) ∧
    rpois n p1 (PySeed.float q) w = (Except.error seedErrorMessage, w) ∧
    rbinom n p1 p2 (PySeed.str s) w = (Except.error seedErrorMessage, w) ∧
    rbinom n p1 p2 (PySeed.float q) w = (Except.error seedErrorMessage, w) ∧
    resIsOk (rbeta n p1 p2 (PySeed.str s) w).1 = true ∧
    resIsOk (rmvnorm n mv sg (PySeed.float q) w).1 = true := by
  refine ⟨?_, ?_, ?_, ?_, ?_, ?_, ?_, ?_, ?_, ?_, ?_, ?_, ?_, ?_, rfl, rfl⟩ <;>
    simp [rexp, rgamma, rnorm, rchisq, runif, rpois, rbinom,
      test_seed_str, test_seed_float]

/-- C8 counterexample: with the global generator in state 1, resolving
`seed=False` returns a generator in state 0 (`RandomState(0)`, because
`isinstance(False, int)` fires first), not one initialized with the
global state as the claim requires. -/
theorem seed_false_not_global_snapshot :
    (test_seed (PySeed.bool false) ⟨1, 0⟩).1 ≠ Except.ok (RandomState.mk 1) ∧
    (test_seed (PySeed.bool false) ⟨1, 0⟩).1 = Except.ok (RandomState.mk 0) :=
  ⟨by simp [test_seed_false], rfl⟩

/-- C8 amended: resolving `seed=False` does leave the world — global
generator state and entropy pool — exactly unchanged, so subsequent
`seed=None` draws are exactly as if the call had never happened; but the
generator it returns is the deterministically 0-seeded `RandomState(0)`
(False reaches the `isinstance(seed, int)` branch), not a snapshot of the
current global state. -/
theorem seed_false_frame_and_value (w : World) (n : Nat) (p1 : ℝ) :
    test_seed (PySeed.bool false) w = (Except.ok (RandomState.mk 0), w) ∧
    rexp n p1 PySeed.none ((test_seed (PySeed.bool false) w).2) =
      rexp n p1 PySeed.none w := ⟨rfl, rfl⟩

/-- C9 counterexample: at `x = 1/2`, `shape1 = shape2 = 2` the beta density
is `3/2`, and `dbeta` with `log=True` returns `3/2` itself rather than its
logarithm (which is strictly smaller). -/
theorem dbeta_log_flag_cex :
    dbeta (1 / 2) 2 2 true ≠ Real.log (dbeta (1 / 2) 2 2 false) := by
  have h32 : st_beta_pdf (1 / 2) 2 2 = 3 / 2 := by
    unfold st_beta_pdf
    rw [show (2:ℝ) - 1 = 1 by norm_num, Real.rpow_one, Real.rpow_one]
    rw [show (2:ℝ) + 2 = 3 + 1 by norm_num,
      Real.Gamma_add_one (by norm_num : (3:ℝ) ≠ 0),
      show (3:ℝ) = 2 + 1 by norm_num,
      Real.Gamma_add_one (by norm_num : (2:ℝ) ≠ 0), Real.Gamma_two]
    norm_num
  show st_beta_pdf (1 / 2) 2 2 ≠ Real.log (st_beta_pdf (1 / 2) 2 2)
  rw [h32]
  have hlt : Real.log (3 / 2 : ℝ) < 3 / 2 := by
    have h := Real.log_lt_sub_one_of_pos (show (0:ℝ) < 3 / 2 by norm_num) (by norm_num)
    linarith
  exact ne_of_gt hlt

/-- C9 amended: `dbeta` ignores its `log` flag entirely — for every value
of the flag it returns the plain (non-log) beta density delegated to
`st.beta.pdf`. -/
theorem dbeta_ignores_log_flag (x s1 s2 : ℝ) (lg : Bool) :
    dbeta x s1 s2 lg = st_beta_pdf x s1 s2 := rfl

/-- C10 counterexample: with global state 5, resolving `seed=False` gives
exactly what integer seed 0 gives — a 0-seeded generator — and not a
snapshot of the global state: `False` IS interpreted as the integer 0. -/
theorem seed_false_acts_as_int_zero :
    test_seed (PySeed.bool false) ⟨5, 9⟩ = test_seed (PySeed.int 0) ⟨5, 9⟩ ∧
    (test_seed (PySeed.bool false) ⟨5, 9⟩).1 ≠ Except.ok (RandomState.mk 5) :=
  ⟨rfl, by simp [test_seed_false]⟩

/-- C10 amended: the resolver tests `seed is True` before
`isinstance(seed, int)`, so `True` always yields a freshly entropy-seeded
generator (consuming entropy, hence never equal to the integer-1
resolution); but the `seed is False` test comes only after the integer
test, and since Python booleans are integers, `False` is always resolved
exactly like the integer seed 0 and never reaches the snapshot branch. -/
theorem bool_seed_resolution_order (w : World) :
    test_seed (PySeed.bool true) w =
      (Except.ok (RandomState.mk w.entropy), ⟨w.globalState, w.entropy + 1⟩) ∧
    test_seed (PySeed.bool true) w ≠ test_seed (PySeed.int 1) w ∧
    test_seed (PySeed.bool false) w = test_seed (PySeed.int 0) w := by
  refine ⟨rfl, ?_, rfl⟩
  rw [test_seed_true, test_seed_int]
  intro h
  have h2 := congrArg (fun p => p.2.entropy) h
  simp at h2
